import Mathlib

/-!
Shallow embedding of the Pomona-FreshSense controller
(`src/cleaned_UI_code.py`): the button-driven navigation state machine
(`button_listener`), the single-slot camera-frame mailbox
(`image_queue = Queue(maxsize=1)` fed by `start_camera_feed`), the
absorbance computation of the scan step, the QR Wi-Fi provisioning
parser (`connect_wifi_from_qr`) and the firmware download
(`download_firmware`).
-/

namespace FreshSense

/-- The five ButtonEvents produced by `read_button`. -/
inductive Button where
  | up | down | left | right | select
deriving DecidableEq, Repr

/-- The values taken by the global string `frame_state`: one constructor per
`case` of the `match frame_state` statement in `button_listener`. -/
inductive FrameState where
  | s1 | s1_1 | s1_2 | s1_3
  | s1_1_1 | s1_1_1_11 | s1_1_1_12 | s1_1_1_13
  | s1_1_1_21 | s1_1_1_22 | s1_1_1_23 | s1_1_1_24
  | s1_1_1_x_1 | s1_1_1_x_2 | s1_1_1_x_3 | s1_1_1_x_4 | s1_1_1_x_5
  | s1_1_2 | s1_1_3
  | s2 | s2_1 | s2_2 | s2_3 | s2_4
  | s3 | s3_1 | s3_2
deriving DecidableEq, Repr

/-- A camera frame, identified abstractly. -/
abbrev Frame := Nat

/-- Source line 61: `beef_model = "svm_model.pkl"`. -/
def beef_model : String := "svm_model.pkl"

/-- Source line 62: `pork_model = "xgb_model.pkl"`. -/
def pork_model : String := "xgb_model.pkl"

/-- Results of the external predicates sampled during one iteration of the
`button_listener` loop. -/
structure Env where
  /-- File names for which `os.path.exists` returns `True` this tick. -/
  files : List String
  /-- Result of calling `is_wifi_connected()` this tick. -/
  wifiConnected : Bool
  /-- Result of `download_firmware()` when state `"2_1"` runs it. -/
  downloadOk : Bool
  /-- Whether `model.predict(...) == [1]` ("Fresh") for the scan taken this tick. -/
  predictionFresh : Bool
  /-- Whether `decode(last_camera_feed)` is non-empty for the frame taken this tick. -/
  qrDecoded : Bool
deriving DecidableEq, Repr

/-- Source lines 580 and 619 test the bare function object `is_wifi_connected`
(no call parentheses).  In Python the truthiness of a function object is
always `True`, so those two conditions are constants. -/
def is_wifi_connected_truthy : Bool := true

/-- The mutable globals of the controller that an iteration of
`button_listener` reads or writes. -/
structure Machine where
  frame_state : FrameState
  button_queue : List Button
  camera_active : Bool
  /-- Contents of `image_queue` (`Queue(maxsize=1)`), front first. -/
  image_queue : List Frame
  last_camera_feed : Option Frame
  img_rp1 : Option Frame
  current_model : Option String
deriving DecidableEq, Repr

/-- Externally visible side effects performed by one iteration of the
`button_listener` loop body. -/
structure Effects where
  /-- The event removed from the front of `button_queue` by `pop(0)`, if any. -/
  consumed : Option Button
  /-- Whether `threading.Thread(target=start_camera_feed).start()` ran. -/
  startedCamera : Bool
  /-- Whether `stop_camera_feed()` ran. -/
  stoppedCamera : Bool
  /-- Whether `nirs.scan()` ran. -/
  scanned : Bool
  /-- Whether `upload_data(payload)` ran. -/
  uploaded : Bool
deriving DecidableEq, Repr

/-- No side effects. -/
def Effects.idle : Effects :=
  { consumed := none, startedCamera := false, stoppedCamera := false,
    scanned := false, uploaded := false }

/-- The effects of an iteration whose only action is `button_queue.pop(0)`. -/
def Effects.pop (b : Button) : Effects := { Effects.idle with consumed := some b }

/-- One iteration of the `match frame_state` block of `button_listener`
(source lines 323-655).  Returns `some` with the updated globals and the
side effects performed when the iteration completes normally.  Returns
`none` when the iteration never completes: either it blocks forever in a
`while image_queue.empty(): time.sleep(0.2)` busy-wait with no frame
available, or — in state `"3_2"` with a frame available — it dies with the
uncaught `TypeError` of line 643 (see the `s3_2` case below and
`step_raises_type_error`).  Rendering calls (`update_status_bar*`) have no
effect on this state and are otherwise omitted. -/
def step (env : Env) (m : Machine) : Option (Machine × Effects) :=
  match m.frame_state with
  | .s1 =>
    match m.button_queue with
    | [] => some (m, Effects.idle)
    | b :: rest =>
      match b with
      | .down => some ({ m with frame_state := .s2, button_queue := rest }, Effects.pop b)
      | .select =>
        if env.files.contains "model_beef.pkl" && env.files.contains "model_pork.pkl" then
          some ({ m with frame_state := .s1_1, button_queue := rest }, Effects.pop b)
        else
          some ({ m with frame_state := .s1_3, button_queue := rest }, Effects.pop b)
      | _ => some ({ m with button_queue := rest }, Effects.pop b)
  | .s1_1 =>
    match m.button_queue with
    | [] => some (m, Effects.idle)
    | b :: rest =>
      match b with
      | .select =>
        some ({ m with
                current_model := some beef_model,
                frame_state := .s1_1_1,
                button_queue := rest }, Effects.pop b)
      | .left => some ({ m with frame_state := .s1, button_queue := rest }, Effects.pop b)
      | .down => some ({ m with frame_state := .s1_2, button_queue := rest }, Effects.pop b)
      | _ => some ({ m with button_queue := rest }, Effects.pop b)
  | .s1_2 =>
    match m.button_queue with
    | [] => some (m, Effects.idle)
    | b :: rest =>
      match b with
      | .select =>
        some ({ m with
                current_model := some pork_model,
                frame_state := .s1_1_1,
                button_queue := rest }, Effects.pop b)
      | .left => some ({ m with frame_state := .s1, button_queue := rest }, Effects.pop b)
      | .up => some ({ m with frame_state := .s1_1, button_queue := rest }, Effects.pop b)
      | _ => some ({ m with button_queue := rest }, Effects.pop b)
  | .s1_3 =>
    match m.button_queue with
    | [] => some (m, Effects.idle)
    | b :: rest =>
      some ({ m with frame_state := .s1, button_queue := rest }, Effects.pop b)
  | .s1_1_1 =>
    match m.button_queue with
    | [] => some (m, Effects.idle)
    | b :: rest =>
      match b with
      | .select =>
        some ({ m with
                frame_state := if env.predictionFresh then .s1_1_1_11 else .s1_1_1_21,
                button_queue := rest },
          { Effects.pop b with
            scanned := true,
            uploaded := true })
      | .left => some ({ m with frame_state := .s1_1, button_queue := rest }, Effects.pop b)
      | .right => some ({ m with frame_state := .s1_1_2, button_queue := rest }, Effects.pop b)
      | _ => some ({ m with button_queue := rest }, Effects.pop b)
  | .s1_1_1_11 =>
    match m.button_queue with
    | [] => some (m, Effects.idle)
    | b :: rest =>
      match b with
      | .select =>
        some ({ m with
                frame_state := .s1_1_1,
                button_queue := rest ++ [Button.select] }, Effects.pop b)
      | .right => some ({ m with frame_state := .s1_1_1_12, button_queue := rest }, Effects.pop b)
      | .left => some ({ m with frame_state := .s1_1_1, button_queue := rest }, Effects.pop b)
      | _ => some ({ m with button_queue := rest }, Effects.pop b)
  | .s1_1_1_12 =>
    match m.button_queue with
    | [] => some (m, Effects.idle)
    | b :: rest =>
      match b with
      | .select => some ({ m with button_queue := rest }, Effects.pop b)
      | .down => some ({ m with frame_state := .s1_1_1_13, button_queue := rest }, Effects.pop b)
      | .left => some ({ m with frame_state := .s1_1_1_11, button_queue := rest }, Effects.pop b)
      | _ => some ({ m with button_queue := rest }, Effects.pop b)
  | .s1_1_1_13 =>
    match m.button_queue with
    | [] => some (m, Effects.idle)
    | b :: rest =>
      match b with
      | .select => some ({ m with button_queue := rest }, Effects.pop b)
      | .up => some ({ m with frame_state := .s1_1_1_12, button_queue := rest }, Effects.pop b)
      | .left => some ({ m with frame_state := .s1_1_1, button_queue := rest }, Effects.pop b)
      | _ => some ({ m with button_queue := rest }, Effects.pop b)
  | .s1_1_1_21 =>
    match m.button_queue with
    | [] => some (m, Effects.idle)
    | b :: rest =>
      match b with
      | .select =>
        some ({ m with
                frame_state := .s1_1_1,
                button_queue := rest ++ [Button.select] }, Effects.pop b)
      | .right => some ({ m with frame_state := .s1_1_1_22, button_queue := rest }, Effects.pop b)
      | .left => some ({ m with frame_state := .s1_1_1, button_queue := rest }, Effects.pop b)
      | .down => some ({ m with frame_state := .s1_1_1_24, button_queue := rest }, Effects.pop b)
      | _ => some ({ m with button_queue := rest }, Effects.pop b)
  | .s1_1_1_22 =>
    match m.button_queue with
    | [] => some (m, Effects.idle)
    | b :: rest =>
      match b with
      | .select => some ({ m with button_queue := rest }, Effects.pop b)
      | .down => some ({ m with frame_state := .s1_1_1_23, button_queue := rest }, Effects.pop b)
      | .left => some ({ m with frame_state := .s1_1_1_21, button_queue := rest }, Effects.pop b)
      | _ => some ({ m with button_queue := rest }, Effects.pop b)
  | .s1_1_1_23 =>
    match m.button_queue with
    | [] => some (m, Effects.idle)
    | b :: rest =>
      match b with
      | .select => some ({ m with button_queue := rest }, Effects.pop b)
      | .up => some ({ m with frame_state := .s1_1_1_12, button_queue := rest }, Effects.pop b)
      | .left => some ({ m with frame_state := .s1_1_1_24, button_queue := rest }, Effects.pop b)
      | _ => some ({ m with button_queue := rest }, Effects.pop b)
  | .s1_1_1_24 =>
    match m.button_queue with
    | [] => some (m, Effects.idle)
    | b :: rest =>
      match b with
      | .select =>
        some ({ m with
                camera_active := true,
                frame_state := .s1_1_1_x_1,
                button_queue := rest },
          { Effects.pop b with startedCamera := true })
      | .up => some ({ m with frame_state := .s1_1_1_11, button_queue := rest }, Effects.pop b)
      | .right => some ({ m with frame_state := .s1_1_1_23, button_queue := rest }, Effects.pop b)
      | _ => some ({ m with button_queue := rest }, Effects.pop b)
  | .s1_1_1_x_1 =>
    match m.image_queue with
    | [] => none
    | f :: iq =>
      let m1 := { m with image_queue := iq, last_camera_feed := some f }
      let m2 := if env.qrDecoded then
          { m1 with img_rp1 := some f, frame_state := .s1_1_1_x_2 }
        else m1
      match m2.button_queue with
      | [] => some (m2, Effects.idle)
      | b :: rest =>
        match b with
        | .left =>
          some ({ m2 with
                  camera_active := false,
                  frame_state := .s1_1_1_24,
                  button_queue := rest },
            { Effects.pop b with stoppedCamera := true })
        | _ => some ({ m2 with button_queue := rest }, Effects.pop b)
  | .s1_1_1_x_2 =>
    match m.image_queue with
    | [] => none
    | f :: iq =>
      let m1 := { m with image_queue := iq, last_camera_feed := some f }
      match m1.button_queue with
      | [] => some (m1, Effects.idle)
      | b :: rest =>
        match b with
        | .select =>
          some ({ m1 with
                  camera_active := false,
                  frame_state := .s1_1_1_x_3,
                  button_queue := rest },
            { Effects.pop b with stoppedCamera := true })
        | .left => some ({ m1 with frame_state := .s1_1_1_x_1, button_queue := rest }, Effects.pop b)
        | _ => some ({ m1 with button_queue := rest }, Effects.pop b)
  | .s1_1_1_x_3 =>
    match m.button_queue with
    | [] => some (m, Effects.idle)
    | b :: rest =>
      match b with
      | .select => some ({ m with frame_state := .s1_1_1_x_5, button_queue := rest }, Effects.pop b)
      | .left =>
        some ({ m with
                camera_active := true,
                frame_state := .s1_1_1_x_2,
                button_queue := rest },
          { Effects.pop b with startedCamera := true })
      | .down => some ({ m with frame_state := .s1_1_1_x_4, button_queue := rest }, Effects.pop b)
      | _ => some ({ m with button_queue := rest }, Effects.pop b)
  | .s1_1_1_x_4 =>
    match m.button_queue with
    | [] => some (m, Effects.idle)
    | b :: rest =>
      match b with
      | .select | .left =>
        some ({ m with
                camera_active := true,
                frame_state := .s1_1_1_x_2,
                button_queue := rest },
          { Effects.pop b with startedCamera := true })
      | .up => some ({ m with frame_state := .s1_1_1_x_3, button_queue := rest }, Effects.pop b)
      | _ => some ({ m with button_queue := rest }, Effects.pop b)
  | .s1_1_1_x_5 =>
    match m.button_queue with
    | [] => some (m, Effects.idle)
    | b :: rest =>
      some ({ m with frame_state := .s1_1_1_24, button_queue := rest }, Effects.pop b)
  | .s1_1_2 =>
    match m.button_queue with
    | [] => some (m, Effects.idle)
    | b :: rest =>
      match b with
      | .select => some ({ m with button_queue := rest }, Effects.pop b)
      | .left => some ({ m with frame_state := .s1_1_1, button_queue := rest }, Effects.pop b)
      | .down => some ({ m with frame_state := .s1_1_3, button_queue := rest }, Effects.pop b)
      | _ => some ({ m with button_queue := rest }, Effects.pop b)
  | .s1_1_3 =>
    match m.button_queue with
    | [] => some (m, Effects.idle)
    | b :: rest =>
      match b with
      | .select => some ({ m with button_queue := rest }, Effects.pop b)
      | .up => some ({ m with frame_state := .s1_1_2, button_queue := rest }, Effects.pop b)
      | .left => some ({ m with frame_state := .s1_1, button_queue := rest }, Effects.pop b)
      | _ => some ({ m with button_queue := rest }, Effects.pop b)
  | .s2 =>
    match m.button_queue with
    | [] => some (m, Effects.idle)
    | b :: rest =>
      match b with
      | .select =>
        if is_wifi_connected_truthy then
          some ({ m with frame_state := .s2_1, button_queue := rest }, Effects.pop b)
        else
          some ({ m with frame_state := .s2_4, button_queue := rest }, Effects.pop b)
      | .down => some ({ m with frame_state := .s3, button_queue := rest }, Effects.pop b)
      | .up => some ({ m with frame_state := .s1, button_queue := rest }, Effects.pop b)
      | _ => some ({ m with button_queue := rest }, Effects.pop b)
  | .s2_1 =>
    some ({ m with frame_state := if env.downloadOk then .s2_2 else .s2_3 }, Effects.idle)
  | .s2_2 =>
    match m.button_queue with
    | [] => some (m, Effects.idle)
    | b :: rest =>
      some ({ m with frame_state := .s2, button_queue := rest }, Effects.pop b)
  | .s2_3 =>
    match m.button_queue with
    | [] => some (m, Effects.idle)
    | b :: rest =>
      some ({ m with frame_state := .s2, button_queue := rest }, Effects.pop b)
  | .s2_4 =>
    match m.button_queue with
    | [] => some (m, Effects.idle)
    | b :: rest =>
      some ({ m with frame_state := .s2, button_queue := rest }, Effects.pop b)
  | .s3 =>
    match m.button_queue with
    | [] => some (m, Effects.idle)
    | b :: rest =>
      match b with
      | .select =>
        some ({ m with
                camera_active := true,
                frame_state := if env.wifiConnected then .s3_1 else .s3_2,
                button_queue := rest },
          { Effects.pop b with startedCamera := true })
      | .up => some ({ m with frame_state := .s2, button_queue := rest }, Effects.pop b)
      | _ => some ({ m with button_queue := rest }, Effects.pop b)
  | .s3_1 =>
    let m0 := if !is_wifi_connected_truthy then { m with frame_state := .s3_2 } else m
    match m0.image_queue with
    | [] => none
    | f :: iq =>
      let m1 := { m0 with image_queue := iq, last_camera_feed := some f }
      match m1.button_queue with
      | [] => some (m1, Effects.idle)
      | b :: rest =>
        match b with
        | .left => some ({ m1 with frame_state := .s3, button_queue := rest }, Effects.pop b)
        | _ => some ({ m1 with button_queue := rest }, Effects.pop b)
  | .s3_2 =>
    -- `if is_wifi_connected(): frame_state = "3_1"` (line 638, a real call) runs
    -- first and the busy-wait then takes a frame, but line 643 calls
    -- `update_status_bar_wCamFeed("UI/3_2.jpg")` without the required second
    -- positional argument `camera_feed` (line 302), so every iteration that
    -- obtains a frame raises an uncaught `TypeError` there and the listener
    -- thread dies before reaching `connect_wifi_from_qr` and the button
    -- handling; with no frame available it blocks in the busy-wait.  Either
    -- way the iteration never completes.  `s3_2_crash_state` records the
    -- globals at the moment of the `TypeError`.
    none

/-- Whether the iteration dies with an uncaught `TypeError`: in state
`"3_2"`, once a frame is available and taken, line 643 calls
`update_status_bar_wCamFeed("UI/3_2.jpg")` without the required
`camera_feed` argument and the exception kills the `button_listener`
thread. -/
def step_raises_type_error (m : Machine) : Bool :=
  m.frame_state == .s3_2 && !m.image_queue.isEmpty

/-- The mutable globals at the moment the `"3_2"` iteration raises the
line-643 `TypeError` (meaningful when a frame is available): lines 638-642
have already run, so the connectivity re-check may have set `frame_state`
to `"3_1"` and the frame has been taken into `last_camera_feed`; the button
queue is untouched because the crash precedes the event branch. -/
def s3_2_crash_state (env : Env) (m : Machine) : Machine :=
  let m0 := if env.wifiConnected then { m with frame_state := .s3_1 } else m
  match m0.image_queue with
  | [] => m0
  | f :: iq => { m0 with image_queue := iq, last_camera_feed := some f }

/-- Whether the `case` body for a state contains an `if button_queue:` event
branch.  Every state has one except `"2_1"`, whose body runs
`download_firmware()` and assigns the next state without touching the
queue.  (State `"3_2"` textually has one too, but its iterations never
reach it: they crash at line 643 or block waiting for a frame.) -/
def hasEventBranch : FrameState → Bool
  | .s2_1 => false
  | _ => true

/-- Whether a state's event branch has an explicit `if`/`elif` arm for a
button (including arms whose action does not change `frame_state`, such as
lamp toggles).  States `"1_3"`, `"1_1_1_x_5"`, `"2_2"`, `"2_3"` and `"2_4"`
handle every event. -/
def hasMapping : FrameState → Button → Bool
  | .s1, .down | .s1, .select => true
  | .s1_1, .select | .s1_1, .left | .s1_1, .down => true
  | .s1_2, .select | .s1_2, .left | .s1_2, .up => true
  | .s1_3, _ => true
  | .s1_1_1, .select | .s1_1_1, .left | .s1_1_1, .right => true
  | .s1_1_1_11, .select | .s1_1_1_11, .right | .s1_1_1_11, .left => true
  | .s1_1_1_12, .select | .s1_1_1_12, .down | .s1_1_1_12, .left => true
  | .s1_1_1_13, .select | .s1_1_1_13, .up | .s1_1_1_13, .left => true
  | .s1_1_1_21, .select | .s1_1_1_21, .right | .s1_1_1_21, .left | .s1_1_1_21, .down => true
  | .s1_1_1_22, .select | .s1_1_1_22, .down | .s1_1_1_22, .left => true
  | .s1_1_1_23, .select | .s1_1_1_23, .up | .s1_1_1_23, .left => true
  | .s1_1_1_24, .select | .s1_1_1_24, .up | .s1_1_1_24, .right => true
  | .s1_1_1_x_1, .left => true
  | .s1_1_1_x_2, .select | .s1_1_1_x_2, .left => true
  | .s1_1_1_x_3, .select | .s1_1_1_x_3, .left | .s1_1_1_x_3, .down => true
  | .s1_1_1_x_4, .select | .s1_1_1_x_4, .left | .s1_1_1_x_4, .up => true
  | .s1_1_1_x_5, _ => true
  | .s1_1_2, .select | .s1_1_2, .left | .s1_1_2, .down => true
  | .s1_1_3, .select | .s1_1_3, .up | .s1_1_3, .left => true
  | .s2, .select | .s2, .down | .s2, .up => true
  | .s2_2, _ | .s2_3, _ | .s2_4, _ => true
  | .s3, .select | .s3, .up => true
  | .s3_1, .left => true
  | .s3_2, .left => true
  | _, _ => false

/-- The (state, front-of-queue event) pairs at which the iteration executes
`camera_active = True; threading.Thread(target=start_camera_feed).start()`. -/
def startsCamera : FrameState → Option Button → Bool
  | .s1_1_1_24, some .select => true
  | .s1_1_1_x_3, some .left => true
  | .s1_1_1_x_4, some .select => true
  | .s1_1_1_x_4, some .left => true
  | .s3, some .select => true
  | _, _ => false

/-- `image_queue = Queue(maxsize=1)`: `full()` for a queue of capacity 1. -/
def queue_full (q : List Frame) : Bool := 1 ≤ q.length

/-- One producer iteration of `start_camera_feed` (source lines 174-176):
`if image_queue.full(): image_queue.get()` then `image_queue.put(img)`.
`get` removes the front element; `put` appends at the back. -/
def producer_put (q : List Frame) (f : Frame) : List Frame :=
  (if queue_full q then q.drop 1 else q) ++ [f]

/-- The fixed reference vector hard-coded in the `'select'` branch of state
`"1_1_1"` (source lines 373-390), 228 samples. -/
def reference : List Nat := [70933, 80262, 88283, 96274, 109441, 121705, 136827, 153952, 172041, 189436, 205751, 220790, 234985,
  248851, 262772, 276941, 295696, 309995, 324162, 337919, 350632, 362296, 372938, 382790, 390847, 397725,
  403039, 407212, 411373, 414042, 415732, 416463, 417887, 419439, 419376, 418787, 417571, 416250, 415476,
  415824, 415636, 414934, 415258, 416688, 418092, 418577, 419049, 420626, 421921, 423485, 424547, 426392,
  428216, 429421, 430229, 429856, 430102, 431299, 431558, 431869, 431408, 431071, 431211, 431043, 431309,
  432018, 432699, 433864, 435151, 436698, 438349, 440047, 441859, 444372, 446593, 449517, 453344, 460494,
  465942, 471436, 477387, 484137, 491504, 499443, 507992, 517337, 526381, 535099, 544160, 557692, 566366,
  574549, 583273, 593536, 602595, 610610, 620041, 630517, 641673, 652903, 663974, 678083, 686919, 695836,
  703672, 710976, 717196, 723574, 730209, 734312, 737269, 740676, 744394, 748484, 749402, 750310, 751569,
  752321, 750432, 747000, 743065, 738146, 732502, 727901, 724493, 720250, 716099, 712015, 707971, 704182,
  700601, 697263, 693919, 691367, 689450, 687141, 681895, 673733, 665255, 665164, 667200, 666720, 664126,
  661717, 659641, 658158, 656205, 653983, 652078, 650148, 646661, 643794, 640373, 636362, 632823, 629454,
  626148, 622781, 619825, 616343, 612129, 608315, 604603, 601736, 598566, 595026, 591114, 587318, 583365,
  579318, 574636, 569072, 563656, 558535, 551301, 544753, 538261, 532374, 526656, 520005, 513107, 506614,
  499861, 492540, 485365, 478179, 468432, 460535, 452929, 445517, 437608, 429768, 422103, 415453, 408069,
  399981, 392229, 385104, 374962, 366739, 358752, 350719, 342888, 334192, 325445, 317355, 309538, 301884,
  293823, 286199, 275650, 267564, 259244, 250549, 241122, 231273, 220846, 209165, 195554, 179442, 161643,
  142514, 116244, 97730, 81527, 68306, 57601, 48540]

/-- The reference vector as real numbers (numpy promotes the integer list to
floats when dividing). -/
noncomputable def referenceR : List ℝ := reference.map fun n => (n : ℝ)

/-- Source line 391: `absorbance = np.log10(np.array(intensity) / np.array(reference))`
— elementwise base-10 logarithm of the elementwise quotient.  No clamping is
applied to `intensity` before the division. -/
noncomputable def absorbance (intensity ref : List ℝ) : List ℝ :=
  List.zipWith (fun s r => Real.logb 10 (s / r)) intensity ref

/-- Modelled from the spec for comparison with `absorbance`: the claimed
computation in which each intensity sample is first clamped to a minimum
floor of 2 ("intensity clamped to ≥2 before the computation"). -/
noncomputable def absorbanceClamped (intensity ref : List ℝ) : List ℝ :=
  List.zipWith (fun s r => Real.logb 10 (max s 2 / r)) intensity ref

/-- Python `str.startswith(pre)` on character lists. -/
def list_starts_with : List Char → List Char → Bool
  | _, [] => true
  | [], _ :: _ => false
  | c :: s, d :: t => c == d && list_starts_with s t

/-- Python `str.split(sep)` for a one-character separator: splits at every
occurrence, keeping empty pieces, and always returns at least one piece. -/
def split_char (sep : Char) : List Char → List (List Char)
  | [] => [[]]
  | c :: rest =>
    match split_char sep rest with
    | [] => if c == sep then [[], []] else [[c]]
    | h :: t => if c == sep then [] :: h :: t else (c :: h) :: t

/-- The whitespace characters removed by Python `str.strip()`. -/
def is_py_space (c : Char) : Bool :=
  c == ' ' || c == '\t' || c == '\n' || c == '\r' || c == '\x0b' || c == '\x0c'

/-- Python `str.strip()`: remove whitespace from both ends. -/
def py_strip (s : List Char) : List Char :=
  ((s.dropWhile is_py_space).reverse.dropWhile is_py_space).reverse

/-- Outcome of feeding one decoded QR payload through the body of the
`for qr in qrcodes:` loop of `connect_wifi_from_qr` (source lines 216-224):
`ok none` when the payload does not start with `"WIFI:"` (the body does
nothing), `ok (some (ssid, password))` when the two fields parse and an
`nmcli dev wifi connect` join is requested, and `error` when a Python
`IndexError` is raised by `details[0].split(":")[1]` or
`details[1].split(":")[1]`. -/
def wifi_payload_action (wifi_info : String) :
    Except String (Option (List Char × List Char)) :=
  let s := wifi_info.data
  if list_starts_with s "WIFI:".data then
    let rest := py_strip (s.drop 5)
    let details := split_char ';' rest
    match (split_char ':' (details.headD [])).get? 1 with
    | none => Except.error "IndexError"
    | some ssid =>
      match details.get? 1 with
      | none => Except.error "IndexError"
      | some d1 =>
        match (split_char ':' d1).get? 1 with
        | none => Except.error "IndexError"
        | some password => Except.ok (some (ssid, password))
  else Except.ok none

/-- `connect_wifi_from_qr` applied to the list of QR payloads decoded from
one frame: processes every payload in order, accumulating the requested
network joins; an uncaught `IndexError` aborts the whole call. -/
def connect_wifi_from_qr (payloads : List String) :
    Except String (List (List Char × List Char)) :=
  payloads.foldlM
    (fun acc p => (wifi_payload_action p).map fun o => acc ++ o.toList) []

/-- A stored file system: file name to byte content. -/
abbrev FileSystem := List (String × List Nat)

/-- Write (create or overwrite) one file. -/
def write_file (fs : FileSystem) (name : String) (content : List Nat) : FileSystem :=
  (fs.filter fun kv => kv.1 ≠ name) ++ [(name, content)]

/-- Shape of the `requests.get(f'{API_URL}/api/v1/PklModel/latest')` response
consulted by `download_firmware`: the status code and
`response.json()['data'][i]['data']` byte arrays. -/
structure HttpResponse where
  status_code : Nat
  data : List (List Nat)
deriving DecidableEq, Repr

/-- `download_firmware` (source lines 238-253): on status 200 it writes
`data[0]` to `svm_model.pkl` and `data[1]` to `xgb_model.pkl` in the working
directory and returns `True`; otherwise it returns `False` without touching
any file.  (On status 200 the source indexes `['data'][0]` and `['data'][1]`
directly; this embedding reads them with a default as no claim concerns a
malformed success response.) -/
def download_firmware (fs : FileSystem) (response : HttpResponse) : Bool × FileSystem :=
  if response.status_code = 200 then
    let buffer_value_svm := response.data.getD 0 []
    let buffer_value_xgb := response.data.getD 1 []
    (true, write_file (write_file fs "svm_model.pkl" buffer_value_svm)
      "xgb_model.pkl" buffer_value_xgb)
  else
    (false, fs)

end FreshSense

namespace FreshSense

lemma zipWith_logb_getD (g : ℝ → ℝ → ℝ) (l1 l2 : List ℝ) (i : ℕ)
    (h1 : i < l1.length) (h2 : i < l2.length) :
    (List.zipWith g l1 l2).getD i 0 = g (l1.getD i 0) (l2.getD i 0) := by
  induction l1 generalizing l2 i with
  | nil => simp at h1
  | cons a t ih =>
    cases l2 with
    | nil => simp at h2
    | cons b t2 =>
      cases i with
      | zero => simp
      | succ j => simpa using ih t2 j (by simpa using h1) (by simpa using h2)

lemma map_cast_getD (l : List Nat) (i : ℕ) (h : i < l.length) :
    (l.map fun n => (n : ℝ)).getD i 0 = ((l.getD i 0 : ℕ) : ℝ) := by
  induction l generalizing i with
  | nil => simp at h
  | cons a t ih =>
    cases i with
    | zero => simp
    | succ j => simpa using ih j (by simpa using h)

set_option maxRecDepth 8000 in
lemma reference_pos : ∀ n ∈ reference, 0 < n := by decide

set_option maxRecDepth 8000 in
lemma reference_length : reference.length = 228 := by rfl

set_option maxRecDepth 8000 in
lemma referenceR_length : referenceR.length = 228 := by
  simp only [referenceR, List.length_map]
  rfl

lemma referenceR_getD_pos (i : ℕ) (h : i < reference.length) :
    0 < referenceR.getD i 0 := by
  simp only [referenceR]
  rw [map_cast_getD reference i h]
  have hm : reference.getD i 0 ∈ reference := by
    rw [List.getD_eq_getElem reference 0 h]
    exact List.getElem_mem h
  exact_mod_cast reference_pos _ hm

/-- C1 (amended): in the scan step the code computes
`absorbance[i] = log10(intensity[i] / reference[i])` against the fixed
228-sample reference vector, with NO clamping of the intensity; since every
reference value is positive, the argument of the logarithm is positive
(hence the result finite) whenever the intensity sample is positive. -/
theorem absorbance_formula_no_clamp (intensity : List ℝ) (i : ℕ)
    (hlen : intensity.length = referenceR.length) (hi : i < intensity.length)
    (hpos : 0 < intensity.getD i 0) :
    (absorbance intensity referenceR).getD i 0
      = Real.logb 10 (intensity.getD i 0 / referenceR.getD i 0) ∧
    0 < intensity.getD i 0 / referenceR.getD i 0 := by
  have hi2 : i < referenceR.length := hlen ▸ hi
  have hiR : i < reference.length := by
    have hl : referenceR.length = 228 := referenceR_length
    have hl2 : reference.length = 228 := reference_length
    omega
  constructor
  · rw [absorbance, zipWith_logb_getD _ _ _ i hi hi2]
  · exact div_pos hpos (referenceR_getD_pos i hiR)

theorem absorbance_formula_no_clamp_witness :
    (absorbance (List.replicate 228 (1:ℝ)) referenceR).getD 0 0
      = Real.logb 10 ((List.replicate 228 (1:ℝ)).getD 0 0 / referenceR.getD 0 0) ∧
    0 < (List.replicate 228 (1:ℝ)).getD 0 0 / referenceR.getD 0 0 :=
  absorbance_formula_no_clamp (List.replicate 228 (1:ℝ)) 0
    (by rw [List.length_replicate, referenceR_length])
    (by rw [List.length_replicate]; omega)
    (by rw [show List.replicate 228 (1:ℝ) = 1 :: List.replicate 227 1 from rfl,
          List.getD_cons_zero]
        norm_num)

/-- C1 counterexample: the claimed clamped formula
`absorbance[i] = log10(max(intensity[i], 2) / reference[i])` is false for the
code at the all-ones intensity vector of matching length 228: at index 0 the
code yields `log10(1/70933)`, not `log10(2/70933)`. -/
theorem absorbance_clamp_counterexample :
    ¬ ((absorbance (List.replicate 228 (1:ℝ)) referenceR).getD 0 0
        = Real.logb 10 (max ((List.replicate 228 (1:ℝ)).getD 0 0) 2
            / referenceR.getD 0 0)) := by
  have hrep : (List.replicate 228 (1:ℝ)).getD 0 0 = 1 := by
    rw [show List.replicate 228 (1:ℝ) = 1 :: List.replicate 227 1 from rfl,
      List.getD_cons_zero]
  have href : referenceR.getD 0 0 = (70933 : ℝ) := by
    simp only [referenceR]
    rw [map_cast_getD reference 0 (by rw [reference_length]; omega)]
    have h70 : reference.getD 0 0 = 70933 := rfl
    rw [h70]
    norm_num
  have habs : (absorbance (List.replicate 228 (1:ℝ)) referenceR).getD 0 0
      = Real.logb 10 (1 / 70933) := by
    rw [absorbance,
      zipWith_logb_getD _ _ _ 0 (by rw [List.length_replicate]; omega)
        (by rw [referenceR_length]; omega),
      hrep, href]
  rw [habs, hrep, href]
  have hmax : max (1:ℝ) 2 = 2 := by norm_num
  rw [hmax]
  intro h
  have hlt : Real.logb 10 ((1:ℝ)/70933) < Real.logb 10 ((2:ℝ)/70933) :=
    Real.logb_lt_logb (by norm_num) (by norm_num) (by norm_num)
  exact absurd h (ne_of_lt hlt)

end FreshSense

namespace FreshSense

lemma producer_put_singleton (q : List Frame) (f : Frame) (h : q.length ≤ 1) :
    producer_put q f = [f] := by
  match q with
  | [] => simp [producer_put, queue_full]
  | [a] => simp [producer_put, queue_full]
  | a :: b :: t => simp at h

lemma foldl_producer_put_last (f : Frame) (fs : List Frame) (q0 : List Frame)
    (h : q0.length ≤ 1) :
    (f :: fs).foldl producer_put q0 = [(f :: fs).getLastD 0] := by
  induction fs generalizing q0 f with
  | nil => simp [producer_put_singleton q0 f h]
  | cons g t ih =>
    rw [List.foldl_cons, producer_put_singleton q0 f h]
    have hgt := ih g [f] (by simp)
    rw [List.foldl_cons] at hgt ⊢
    rw [producer_put_singleton [f] g (by simp)] at hgt ⊢
    rw [hgt]
    simp [List.getLastD_cons]

lemma foldl_producer_put_le (l : List Frame) (q0 : List Frame) (h : q0.length ≤ 1) :
    (l.foldl producer_put q0).length ≤ 1 := by
  induction l generalizing q0 with
  | nil => simpa using h
  | cons f t ih =>
    rw [List.foldl_cons, producer_put_singleton q0 f h]
    exact ih [f] (by simp)

/-- C2: starting from any mailbox content within capacity, every
intermediate state of a run of producer iterations (each of which discards
the old frame when the queue is full before putting) holds at most one
frame, and after the whole run the mailbox holds exactly the most recently
produced frame, which is what `image_queue.get()` would retrieve. -/
theorem mailbox_single_slot_latest_frame (q0 frames pre suf : List Frame)
    (f : Frame) (fs : List Frame)
    (hcap : q0.length ≤ 1) (hframes : frames = f :: fs)
    (hsplit : pre ++ suf = frames) :
    (pre.foldl producer_put q0).length ≤ 1 ∧
    frames.foldl producer_put q0 = [frames.getLastD 0] ∧
    (frames.foldl producer_put q0).head? = some (frames.getLastD 0) := by
  subst hframes
  refine ⟨foldl_producer_put_le pre q0 hcap, ?_, ?_⟩
  · exact foldl_producer_put_last f fs q0 hcap
  · rw [foldl_producer_put_last f fs q0 hcap]; rfl

theorem mailbox_single_slot_latest_frame_witness :
    (([10, 11] : List Frame).foldl producer_put []).length ≤ 1 ∧
    ([10, 11, 12] : List Frame).foldl producer_put []
      = [([10, 11, 12] : List Frame).getLastD 0] ∧
    (([10, 11, 12] : List Frame).foldl producer_put []).head?
      = some (([10, 11, 12] : List Frame).getLastD 0) :=
  mailbox_single_slot_latest_frame [] [10, 11, 12] [10, 11] [12] 10 [11, 12]
    (by simp) rfl rfl

set_option maxHeartbeats 2000000 in
lemma step_pops_head (env : Env) (m : Machine) (e : Button) (rest : List Button)
    (hb : hasEventBranch m.frame_state = true)
    (hq : m.button_queue = e :: rest) :
    ∀ r ∈ step env m, r.2.consumed = some e ∧
      (r.1.button_queue = rest ∨ r.1.button_queue = rest ++ [Button.select]) := by
  obtain ⟨fs, q, ca, iq, lcf, rp, cm⟩ := m
  simp only at hq hb
  subst hq
  cases fs <;> simp only [hasEventBranch] at hb <;> cases iq <;> cases e <;>
    simp [step, Effects.pop, Effects.idle] <;>
    first
      | simp at hb
      | (split_ifs <;> simp)

set_option maxHeartbeats 4000000 in
lemma step_consumed_at_most_head (env : Env) (m : Machine) :
    ∀ r ∈ step env m, r.2.consumed = none ∨ r.2.consumed = m.button_queue.head? := by
  obtain ⟨fs, q, ca, iq, lcf, rp, cm⟩ := m
  cases fs <;> cases iq <;>
    rcases q with _ | ⟨b, rest⟩ <;>
    (try cases b) <;>
    simp [step, Effects.pop, Effects.idle] <;>
    (split_ifs <;> simp)

/-- C3: any completed iteration consumes either nothing or exactly the
front of `button_queue`; and when the queue holds `[e1, e2, e3]`, three
consecutive completed iterations whose states all have an event branch
consume exactly `e1`, then `e2`, then `e3` — FIFO order. -/
theorem events_fifo_one_per_tick
    (env0 env1 env2 env3 : Env) (m0 n0 m1 m2 m3 m4 : Machine)
    (eff0 eff1 eff2 eff3 : Effects) (e1 e2 e3 : Button)
    (h0 : step env0 m0 = some (n0, eff0))
    (hq : m1.button_queue = [e1, e2, e3])
    (hb1 : hasEventBranch m1.frame_state = true)
    (hb2 : hasEventBranch m2.frame_state = true)
    (hb3 : hasEventBranch m3.frame_state = true)
    (h1 : step env1 m1 = some (m2, eff1))
    (h2 : step env2 m2 = some (m3, eff2))
    (h3 : step env3 m3 = some (m4, eff3)) :
    (eff0.consumed = none ∨ eff0.consumed = m0.button_queue.head?) ∧
    eff1.consumed = some e1 ∧ eff2.consumed = some e2 ∧ eff3.consumed = some e3 := by
  refine ⟨step_consumed_at_most_head env0 m0 (n0, eff0) h0, ?_, ?_, ?_⟩
  case _ => exact (step_pops_head env1 m1 e1 [e2, e3] hb1 hq (m2, eff1) h1).1
  all_goals {
    obtain ⟨hc1, hq2⟩ := step_pops_head env1 m1 e1 [e2, e3] hb1 hq (m2, eff1) h1
    rcases hq2 with hq2 | hq2
    all_goals {
      obtain ⟨hc2, hq3⟩ := step_pops_head env2 m2 e2 _ hb2 hq2 (m3, eff2) h2
      first
        | exact hc2
        | (rcases hq3 with hq3 | hq3 <;>
            exact (step_pops_head env3 m3 e3 _ hb3 hq3 (m4, eff3) h3).1)
    }
  }

theorem events_fifo_one_per_tick_witness :
    ((Effects.pop Button.down).consumed = none ∨
      (Effects.pop Button.down).consumed
        = (Machine.mk .s1 [.down, .down, .up] false [] none none none).button_queue.head?) ∧
    (Effects.pop Button.down).consumed = some Button.down ∧
    (Effects.pop Button.down).consumed = some Button.down ∧
    (Effects.pop Button.up).consumed = some Button.up :=
  events_fifo_one_per_tick
    ⟨[], true, false, false, false⟩ ⟨[], true, false, false, false⟩
    ⟨[], true, false, false, false⟩ ⟨[], true, false, false, false⟩
    ⟨.s1, [.down, .down, .up], false, [], none, none, none⟩
    ⟨.s2, [.down, .up], false, [], none, none, none⟩
    ⟨.s1, [.down, .down, .up], false, [], none, none, none⟩
    ⟨.s2, [.down, .up], false, [], none, none, none⟩
    ⟨.s3, [.up], false, [], none, none, none⟩
    ⟨.s2, [], false, [], none, none, none⟩
    (Effects.pop .down) (Effects.pop .down) (Effects.pop .down) (Effects.pop .up)
    Button.down Button.down Button.up
    (by decide) rfl (by decide) (by decide) (by decide)
    (by decide) (by decide) (by decide)

set_option maxHeartbeats 8000000 in
lemma step_unmapped (env : Env) (m : Machine) (e : Button)
    (hq : m.button_queue = [e])
    (hmap : hasMapping m.frame_state e = false)
    (hb : hasEventBranch m.frame_state = true) :
    ∀ r ∈ step env m, ∀ r0 ∈ step env { m with button_queue := [] },
      r.1.frame_state = r0.1.frame_state ∧ r.2.consumed = some e ∧
        r.1.button_queue = [] := by
  obtain ⟨fs, q, ca, iq, lcf, rp, cm⟩ := m
  simp only at hq; subst hq
  cases fs <;> cases e <;>
    simp_all [hasMapping, hasEventBranch] <;>
    cases iq <;> simp [step, Effects.pop, Effects.idle] <;>
    (split_ifs <;> simp)

/-- C4 (amended): an event with no arm in the current state's event branch
is consumed and contributes nothing: the resulting `frame_state` is exactly
the one the same iteration would produce with an empty queue (background
environment conditions may still change the state in the same iteration). -/
theorem unmapped_event_no_contribution (env : Env) (m m1 m0 : Machine)
    (eff1 eff0 : Effects) (e : Button)
    (hq : m.button_queue = [e])
    (hmap : hasMapping m.frame_state e = false)
    (hb : hasEventBranch m.frame_state = true)
    (h1 : step env m = some (m1, eff1))
    (h0 : step env { m with button_queue := [] } = some (m0, eff0)) :
    m1.frame_state = m0.frame_state ∧ eff1.consumed = some e ∧
      m1.button_queue = [] :=
  step_unmapped env m e hq hmap hb (m1, eff1) h1 (m0, eff0) h0

theorem unmapped_event_no_contribution_witness :
    (Machine.mk .s1 [] false [] none none none).frame_state
      = (Machine.mk .s1 [] false [] none none none).frame_state ∧
    (Effects.pop Button.up).consumed = some Button.up ∧
    (Machine.mk .s1 [] false [] none none none).button_queue = [] :=
  unmapped_event_no_contribution ⟨[], true, false, false, false⟩
    ⟨.s1, [.up], false, [], none, none, none⟩
    ⟨.s1, [], false, [], none, none, none⟩
    ⟨.s1, [], false, [], none, none, none⟩
    (Effects.pop .up) Effects.idle Button.up
    rfl (by decide) (by decide) (by decide) (by decide)

/-- C4 counterexample: in the live-feed state `"1_1_1_x_1"` the event `up`
has no arm, yet an iteration that consumes it does NOT leave the state
unchanged when the frame taken this tick decodes a QR code: the background
QR condition (lines 499-501) moves the machine to `"1_1_1_x_2"` in the same
iteration that pops `up`. -/
theorem unmapped_event_state_change_counterexample :
    hasMapping FrameState.s1_1_1_x_1 Button.up = false ∧
    step ⟨[], true, false, false, true⟩
        ⟨.s1_1_1_x_1, [.up], true, [5], none, none, none⟩
      = some (⟨.s1_1_1_x_2, [], true, [], some 5, some 5, none⟩, Effects.pop .up) ∧
    FrameState.s1_1_1_x_2 ≠ FrameState.s1_1_1_x_1 := by decide

set_option maxHeartbeats 8000000 in
lemma step_starts_camera (env : Env) (m : Machine) :
    ∀ r ∈ step env m,
      r.2.startedCamera = startsCamera m.frame_state m.button_queue.head? ∧
        (r.2.startedCamera = true → r.1.camera_active = true) := by
  obtain ⟨fs, q, ca, iq, lcf, rp, cm⟩ := m
  cases fs <;> cases iq <;>
    rcases q with _ | ⟨b, rest⟩ <;>
    (try cases b) <;>
    simp [step, startsCamera, Effects.pop, Effects.idle] <;>
    (split_ifs <;> simp)

/-- C5 (amended): a producer thread is started exactly on the transitions
listed in `startsCamera` — `"1_1_1_24"`+select, `"1_1_1_x_3"`+left,
`"1_1_1_x_4"`+select/left, `"3"`+select — with no check whatsoever of
whether a session is already active (`camera_active` is simply overwritten
with `True`); none of these is a self-loop, so staying in a state never
restarts a session. -/
theorem camera_start_unconditional (env : Env) (m m' : Machine) (eff : Effects)
    (h : step env m = some (m', eff)) :
    eff.startedCamera = startsCamera m.frame_state m.button_queue.head? ∧
      (eff.startedCamera = true → m'.camera_active = true) :=
  step_starts_camera env m (m', eff) h

theorem camera_start_unconditional_witness :
    ({ Effects.pop Button.select with startedCamera := true }).startedCamera
      = startsCamera (Machine.mk .s3 [.select] true [] (some 7) none none).frame_state
          (Machine.mk .s3 [.select] true [] (some 7) none none).button_queue.head? ∧
    (({ Effects.pop Button.select with startedCamera := true }).startedCamera = true →
      (Machine.mk .s3_1 [] true [] (some 7) none none).camera_active = true) :=
  camera_start_unconditional ⟨[], true, false, false, false⟩
    ⟨.s3, [.select], true, [], some 7, none, none⟩
    ⟨.s3_1, [], true, [], some 7, none, none⟩
    { Effects.pop Button.select with startedCamera := true }
    (by decide)

/-- C5 counterexample: the reachable trace `"3"`+select (starts producer,
enters `"3_1"`), `"3_1"`+left (returns to `"3"` WITHOUT stopping the feed),
`"3"`+select again starts a second producer while `camera_active` is still
`true` — the claimed "start is a no-op while a session is active" guard
does not exist. -/
theorem second_producer_started_counterexample :
    (step ⟨[], true, false, false, false⟩
        ⟨.s3, [.select, .left, .select], false, [], none, none, none⟩
      = some (⟨.s3_1, [.left, .select], true, [], none, none, none⟩,
          { Effects.pop .select with startedCamera := true })) ∧
    producer_put [] 7 = [7] ∧
    (step ⟨[], true, false, false, false⟩
        ⟨.s3_1, [.left, .select], true, [7], none, none, none⟩
      = some (⟨.s3, [.select], true, [], some 7, none, none⟩, Effects.pop .left)) ∧
    (step ⟨[], true, false, false, false⟩
        ⟨.s3, [.select], true, [], some 7, none, none⟩
      = some (⟨.s3_1, [], true, [], some 7, none, none⟩,
          { Effects.pop .select with startedCamera := true })) := by decide

/-- C6 (amended): decoding `"WIFI:S:HomeNet;P:secret123;;"` yields
ssid `"HomeNet"`, password `"secret123"` and one join request; decoding
`"HTTP://example.com"` — and any payload not starting with `"WIFI:"` — makes
no provisioning attempt and raises no error.  (A payload that does start
with `"WIFI:"` but lacks the expected fields raises an `IndexError`; see the
counterexample.) -/
theorem wifi_provisioning_scenarios (p : String)
    (hp : list_starts_with p.data "WIFI:".data = false) :
    connect_wifi_from_qr ["WIFI:S:HomeNet;P:secret123;;"]
      = Except.ok [("HomeNet".data, "secret123".data)] ∧
    connect_wifi_from_qr ["HTTP://example.com"] = Except.ok [] ∧
    connect_wifi_from_qr [p] = Except.ok [] := by
  refine ⟨by rfl, by rfl, ?_⟩
  simp [connect_wifi_from_qr, wifi_payload_action, hp, Except.map]

theorem wifi_provisioning_scenarios_witness :
    connect_wifi_from_qr ["WIFI:S:HomeNet;P:secret123;;"]
      = Except.ok [("HomeNet".data, "secret123".data)] ∧
    connect_wifi_from_qr ["HTTP://example.com"] = Except.ok [] ∧
    connect_wifi_from_qr ["HTTP://example.com"] = Except.ok [] :=
  wifi_provisioning_scenarios "HTTP://example.com" (by rfl)

/-- C6 counterexample: the malformed payload `"WIFI:;"` matches the
network-descriptor guard but is NOT ignored: `details[0].split(":")[1]`
raises an uncaught `IndexError`, contradicting "every malformed payload is
ignored without raising an error". -/
theorem malformed_wifi_payload_raises :
    list_starts_with ("WIFI:;").data ("WIFI:").data = true ∧
    connect_wifi_from_qr ["WIFI:;"] = Except.error "IndexError" := by
  exact ⟨rfl, rfl⟩

/-- C7: the root-state `select` guard tests `model_beef.pkl` and
`model_pork.pkl`, but the classifier loads `svm_model.pkl`/`xgb_model.pkl`
(the values of `beef_model`/`pork_model`) and `download_firmware` writes
exactly those two files.  With precisely the loaded/downloaded files
present the guard still routes to the "setup incomplete" leaf `"1_3"`, and
with the never-written files present it routes to `"1_1"`. -/
theorem model_guard_checks_wrong_files :
    (step ⟨["svm_model.pkl", "xgb_model.pkl"], true, false, false, false⟩
        ⟨.s1, [.select], false, [], none, none, none⟩
      = some (⟨.s1_3, [], false, [], none, none, none⟩, Effects.pop .select)) ∧
    (step ⟨["model_beef.pkl", "model_pork.pkl"], true, false, false, false⟩
        ⟨.s1, [.select], false, [], none, none, none⟩
      = some (⟨.s1_1, [], false, [], none, none, none⟩, Effects.pop .select)) ∧
    (download_firmware [] ⟨200, [[1], [2]]⟩).2
      = [("svm_model.pkl", [1]), ("xgb_model.pkl", [2])] ∧
    beef_model = "svm_model.pkl" ∧ pork_model = "xgb_model.pkl" := by decide

/-- C8: when the model-download response is not a success (status ≠ 200),
`download_firmware` returns `False` and the stored file system is returned
byte-for-byte unchanged, and the iteration in the download state `"2_1"`
routes to the failure state `"2_3"`. -/
theorem failed_download_preserves_files (fs : FileSystem) (resp : HttpResponse)
    (env : Env) (m m' : Machine) (eff : Effects)
    (hresp : resp.status_code ≠ 200)
    (hm : m.frame_state = FrameState.s2_1)
    (henv : env.downloadOk = (download_firmware fs resp).1)
    (h : step env m = some (m', eff)) :
    download_firmware fs resp = (false, fs) ∧
      m'.frame_state = FrameState.s2_3 := by
  have hdl : download_firmware fs resp = (false, fs) := by
    simp [download_firmware, hresp]
  refine ⟨hdl, ?_⟩
  have henv2 : env.downloadOk = false := by rw [henv, hdl]
  obtain ⟨fsM, q, ca, iq, lcf, rp, cm⟩ := m
  simp only at hm; subst hm
  simp [step, henv2] at h
  obtain ⟨h1, h2⟩ := h
  rw [← h1]

theorem failed_download_preserves_files_witness :
    download_firmware [("svm_model.pkl", [9])] ⟨404, []⟩
      = (false, [("svm_model.pkl", [9])]) ∧
    (Machine.mk .s2_3 [] false [] none none none).frame_state = FrameState.s2_3 :=
  failed_download_preserves_files [("svm_model.pkl", [9])] ⟨404, []⟩
    ⟨[], true, false, false, false⟩
    ⟨.s2_1, [], false, [], none, none, none⟩
    ⟨.s2_3, [], false, [], none, none, none⟩
    Effects.idle
    (by decide) rfl (by decide) (by decide)

/-- C9: in the connected-view state `"3_1"` with connectivity down the
iteration completes but stays in `"3_1"` — line 619 tests the truthiness of
the bare function object `is_wifi_connected` instead of calling it, so the
fallback to `"3_2"` never fires.  In the disconnected-view state `"3_2"`
the real `is_wifi_connected()` call of line 638 does set `frame_state` to
`"3_1"` when connectivity is up, but the iteration then dies with the
line-643 `TypeError` after taking the frame and never completes, so no
further tick ever runs. -/
theorem qr_provisioning_connectivity_check :
    (step ⟨[], false, false, false, false⟩
        ⟨.s3_1, [], true, [5], none, none, none⟩
      = some (⟨.s3_1, [], true, [], some 5, none, none⟩, Effects.idle)) ∧
    (step ⟨[], true, false, false, false⟩
        ⟨.s3_2, [], true, [5], none, none, none⟩ = none) ∧
    step_raises_type_error ⟨.s3_2, [], true, [5], none, none, none⟩ = true ∧
    (s3_2_crash_state ⟨[], true, false, false, false⟩
        ⟨.s3_2, [], true, [5], none, none, none⟩).frame_state
      = FrameState.s3_1 := by decide

/-- C10: in state `"1_1_1_x_1"`, when the frame taken this iteration
decodes a QR code and a `left` event is queued, the background QR condition
fires first (the frame is saved to `img_rp1` and the state set to
`"1_1_1_x_2"`), but the `left` handler of the old state's `case` body still
runs: the iteration ends with the camera stopped and `frame_state` equal to
`"1_1_1_24"`. -/
theorem qr_and_left_same_tick (env : Env) (m m' : Machine) (eff : Effects)
    (f : Frame) (iq : List Frame) (rest : List Button)
    (hs : m.frame_state = FrameState.s1_1_1_x_1)
    (hq : m.button_queue = Button.left :: rest)
    (hiq : m.image_queue = f :: iq)
    (hqr : env.qrDecoded = true)
    (h : step env m = some (m', eff)) :
    m'.frame_state = FrameState.s1_1_1_24 ∧ m'.camera_active = false ∧
    eff.stoppedCamera = true ∧ m'.img_rp1 = some f ∧
    eff.consumed = some Button.left ∧ m'.button_queue = rest := by
  obtain ⟨fsM, q, ca, iqM, lcf, rp, cm⟩ := m
  simp only at hs hq hiq
  subst hs; subst hq; subst hiq
  simp [step, hqr, Effects.pop, Effects.idle] at h
  obtain ⟨h1, h2⟩ := h
  rw [← h1, ← h2]
  simp [Effects.pop, Effects.idle]

theorem qr_and_left_same_tick_witness :
    (Machine.mk .s1_1_1_24 [] false [4] (some 9) (some 9) none).frame_state
        = FrameState.s1_1_1_24 ∧
    (Machine.mk .s1_1_1_24 [] false [4] (some 9) (some 9) none).camera_active = false ∧
    ({ Effects.pop Button.left with stoppedCamera := true }).stoppedCamera = true ∧
    (Machine.mk .s1_1_1_24 [] false [4] (some 9) (some 9) none).img_rp1 = some 9 ∧
    ({ Effects.pop Button.left with stoppedCamera := true }).consumed
        = some Button.left ∧
    (Machine.mk .s1_1_1_24 [] false [4] (some 9) (some 9) none).button_queue = [] :=
  qr_and_left_same_tick ⟨[], true, false, false, true⟩
    ⟨.s1_1_1_x_1, [.left], true, [9, 4], none, none, none⟩
    ⟨.s1_1_1_24, [], false, [4], some 9, some 9, none⟩
    { Effects.pop Button.left with stoppedCamera := true }
    9 [4] []
    rfl rfl rfl rfl (by decide)

end FreshSense
